import Mathlib

/-!
Verification of the Exif parsing / removal core (`exif.c`) against its
specification.  The C source is shallowly embedded: the input file is a list
of bytes, `fseek`/`fread` become positional reads over that list, and every
parsing routine becomes a pure function returning `Option`/`Except` values.
Multi-byte fields are modelled at the value level: the source reads raw
structs into host memory and then normalizes with `fix_short`/`fix_int`
(conditional `swab`), whose net effect is interpreting the stored bytes in
the data byte order (JPEG marker/length fields: always big-endian).
-/

namespace Exif

/-- A file is a byte stream: the list of its bytes (each < 256). -/
def File := List Nat

/-- Byte of `f` at position `i` (reads are only taken under bounds guards,
mirroring the `fread` return-value checks of the source). -/
def byteAt (f : File) (i : Nat) : Nat := (List.getD f i 0)

/-- Models `fseek(fp, pos, SEEK_SET)` followed by `fread(buf, 1, n, fp)` with
the source's `< n` short-read check: `none` when fewer than `n` bytes are
available (`fread` with `n = 0` succeeds at any position). -/
def readBytes (f : File) (pos n : Nat) : Option (List Nat) :=
  if n = 0 then some []
  else if pos + n ≤ List.length f then some (List.take n (List.drop pos f)) else none

/-- Big-endian value of two bytes. -/
def be16 (b0 b1 : Nat) : Nat := b0 * 256 + b1

/-- Little-endian value of two bytes. -/
def le16 (b0 b1 : Nat) : Nat := b0 + b1 * 256

/-- Value of a 16-bit field stored as bytes `b0 b1`, after `fix_short`
normalization, in the data byte order selected by `le`. -/
def u16val (le : Bool) (b0 b1 : Nat) : Nat := if le then le16 b0 b1 else be16 b0 b1

/-- Value of a 32-bit field stored as bytes `b0 b1 b2 b3`, after `fix_int`
normalization, in the data byte order selected by `le`. -/
def u32val (le : Bool) (b0 b1 b2 b3 : Nat) : Nat :=
  if le then b0 + 256 * (b1 + 256 * (b2 + 256 * b3))
  else b3 + 256 * (b2 + 256 * (b1 + 256 * b0))

/-- Read a 16-bit big-endian field (JPEG marker / segment-length fields;
the source `swab16`s them exactly when the host is little-endian, i.e. it
always interprets them big-endian). -/
def readU16be (f : File) (pos : Nat) : Option Nat :=
  if pos + 2 ≤ List.length f then some (be16 (byteAt f pos) (byteAt f (pos + 1))) else none

/-- Read a 16-bit field in the data byte order (raw `fread` + `fix_short`). -/
def readU16 (le : Bool) (f : File) (pos : Nat) : Option Nat :=
  if pos + 2 ≤ List.length f then some (u16val le (byteAt f pos) (byteAt f (pos + 1))) else none

/-- Read a 32-bit field in the data byte order (raw `fread` + `fix_int`). -/
def readU32 (le : Bool) (f : File) (pos : Nat) : Option Nat :=
  if pos + 4 ≤ List.length f then
    some (u32val le (byteAt f pos) (byteAt f (pos + 1)) (byteAt f (pos + 2)) (byteAt f (pos + 3)))
  else none

/-! Constants from `exif.h` (the header is not part of `src/`).
Modelled from the spec: tag type codes and the well-known pointer-tag ids are
listed in spec section 6; the error statuses are the negative codes of spec
section 7 (their exact numeric values are immaterial to the claims, only
that they are negative and distinct). -/

/-- Modelled from the spec: type code 1 = Byte. -/
def TYPE_BYTE : Nat := 1

/-- Modelled from the spec: type code 2 = Ascii. -/
def TYPE_ASCII : Nat := 2

/-- Modelled from the spec: type code 3 = Short. -/
def TYPE_SHORT : Nat := 3

/-- Modelled from the spec: type code 4 = Long. -/
def TYPE_LONG : Nat := 4

/-- Modelled from the spec: type code 5 = Rational. -/
def TYPE_RATIONAL : Nat := 5

/-- Modelled from the spec: type code 6 = SByte. -/
def TYPE_SBYTE : Nat := 6

/-- Modelled from the spec: type code 7 = Undefined. -/
def TYPE_UNDEFINED : Nat := 7

/-- Modelled from the spec: type code 8 = SShort. -/
def TYPE_SSHORT : Nat := 8

/-- Modelled from the spec: type code 9 = SLong. -/
def TYPE_SLONG : Nat := 9

/-- Modelled from the spec: type code 10 = SRational. -/
def TYPE_SRATIONAL : Nat := 10

/-- Modelled from the spec: ExifIFDPointer tag id 0x8769. -/
def TAG_ExifIFDPointer : Nat := 0x8769

/-- Modelled from the spec: GPSInfoIFDPointer tag id 0x8825. -/
def TAG_GPSInfoIFDPointer : Nat := 0x8825

/-- Modelled from the spec: InteroperabilityIFDPointer tag id 0xA005. -/
def TAG_InteroperabilityIFDPointer : Nat := 0xA005

/-- Modelled from the spec: `ReadFailure` status (negative). -/
def ERR_READ_FILE : Int := -1

/-- Modelled from the spec: `WriteFailure` status (negative). -/
def ERR_WRITE_FILE : Int := -2

/-- Modelled from the spec: `InvalidJpegSignature` status (negative). -/
def ERR_INVALID_JPEG : Int := -3

/-- Modelled from the spec: `InvalidApp1Header` status (negative). -/
def ERR_INVALID_APP1HEADER : Int := -4

/-- Modelled from the spec: `InvalidIfd` ("had IFD errors") status (negative). -/
def ERR_INVALID_IFD : Int := -5

/-- Directory kinds (`IFD_TYPE` in `exif.h`; `IFD_Interop` is `IFD_IO` in the
source). -/
inductive IFD_TYPE where
  | IFD_UNKNOWN
  | IFD_0TH
  | IFD_1ST
  | IFD_EXIF
  | IFD_GPS
  | IFD_Interop
deriving DecidableEq

export IFD_TYPE (IFD_UNKNOWN IFD_0TH IFD_1ST IFD_EXIF IFD_GPS IFD_Interop)

/-- A decoded tag (`TagNode` of the source; the `prev`/`next` links become the
position in the directory's list). `error` is the `decodeError` flag. -/
structure TagNode where
  tagId : Nat
  type : Nat
  count : Nat
  numData : Option (List Nat)
  byteData : Option (List Nat)
  error : Bool
deriving DecidableEq

/-- The APP1 segment header after `readApp1SegmentHeader` normalization
(`marker` is unused downstream and omitted; `length` is the big-endian
segment length; `byteOrder` is 0x4949 or 0x4D4D). -/
structure App1Header where
  length : Nat
  byteOrder : Nat
  reserved : Nat
  Ifd0thOffset : Nat
deriving DecidableEq

/-- Source `dataIsLittleEndian()`: byte order marker is 'II'. -/
def dataIsLittleEndian (hdr : App1Header) : Bool := hdr.byteOrder == 0x4949

/-- An IFD table (`IfdTable` of the source, with the tag list in order). -/
structure IfdTable where
  ifdType : IFD_TYPE
  tagCount : Nat
  tags : List TagNode
  nextIfdOffset : Nat
deriving DecidableEq

/-- Source `addTagNodeToIfd` (node construction part): a tag with `count = 0`
or with neither numeric nor byte data gets `error = 1`; numeric data is
copied as `count` values (doubled for rationals), byte data as `count`
bytes. -/
def addTagNode (tagId typ count : Nat) (numData byteData : Option (List Nat)) : TagNode :=
  if 0 < count then
    match numData with
    | some nd =>
      { tagId := tagId, type := typ, count := count,
        numData := some (List.take
          (if typ = TYPE_RATIONAL ∨ typ = TYPE_SRATIONAL then count * 2 else count) nd),
        byteData := none, error := false }
    | none =>
      match byteData with
      | some bd =>
        { tagId := tagId, type := typ, count := count,
          numData := none, byteData := some (List.take count bd), error := false }
      | none =>
        { tagId := tagId, type := typ, count := count,
          numData := none, byteData := none, error := true }
  else
    { tagId := tagId, type := typ, count := count,
      numData := none, byteData := none, error := true }

/-- Interpret a raw byte list as consecutive 32-bit values in the data byte
order (the `fix_int` loop over a freshly read rational array). -/
def bytesToU32s (le : Bool) : List Nat → List Nat
  | b0 :: b1 :: b2 :: b3 :: rest => u32val le b0 b1 b2 b3 :: bytesToU32s le rest
  | _ => []

/-- Interpret a raw byte buffer as `count` values of `size` bytes each (the
`memcpy`/`fix` loop of the multi-value integer branch of `parseIFD`; for
`size = 1` the source leaves the upper bytes of `val` unspecified — we model
the evidently intended byte value). -/
def chunkToVals (le : Bool) (size count : Nat) (bs : List Nat) : List Nat :=
  List.map (fun i =>
    if size = 4 then
      u32val le (List.getD bs (i * 4) 0) (List.getD bs (i * 4 + 1) 0)
        (List.getD bs (i * 4 + 2) 0) (List.getD bs (i * 4 + 3) 0)
    else if size = 2 then
      u16val le (List.getD bs (i * 2) 0) (List.getD bs (i * 2 + 1) 0)
    else List.getD bs i 0) (List.range count)

/-- Decode one tag descriptor's value (the body of the `parseIFD` tag loop):
`s` is the APP1 segment start offset, `s + 10` the TIFF header base,
`app1Len` the declared segment length, `data` the 4 raw bytes of the
value-or-offset field. Returns `none` exactly when no type branch fires
(unknown type codes: the source silently drops the tag). -/
def decodeTag (f : File) (s : Nat) (le : Bool) (app1Len : Nat)
    (tagId typ count offset : Nat) (data : List Nat) : Option TagNode :=
  if typ = TYPE_ASCII ∨ typ = TYPE_UNDEFINED then
    if count ≤ 4 then
      some (addTagNode tagId typ count none (some data))
    else if 8192 < count ∧ app1Len ≤ count then
      -- heap fallback rejected: count ≥ App1Header.length is illegal
      some (addTagNode tagId typ count none none)
    else
      match readBytes f (s + 10 + offset) count with
      | none => some (addTagNode tagId typ count none none)
      | some bs => some (addTagNode tagId typ count none (some bs))
  else if typ = TYPE_RATIONAL ∨ typ = TYPE_SRATIONAL then
    some (addTagNode tagId typ count
      (if app1Len ≤ ((count * 2) % 4294967296) * 4 then none
       else match readBytes f (s + 10 + offset) (((count * 2) % 4294967296) * 4) with
         | none => none
         | some bs => some (bytesToU32s le bs)) none)
  else if typ = TYPE_BYTE ∨ typ = TYPE_SHORT ∨ typ = TYPE_LONG ∨
          typ = TYPE_SBYTE ∨ typ = TYPE_SSHORT ∨ typ = TYPE_SLONG then
    if count ≤ 1 then
      some (addTagNode tagId typ count
        (some [if typ = TYPE_BYTE ∨ typ = TYPE_SBYTE then List.getD data 0 0
               else if typ = TYPE_SHORT ∨ typ = TYPE_SSHORT then
                 u16val le (List.getD data 0 0) (List.getD data 1 0)
               else offset]) none)
    else
      if app1Len ≤ ((4 * count) % 4294967296) then
        some (addTagNode tagId typ count none none)
      else
        if (if typ = TYPE_BYTE ∨ typ = TYPE_SBYTE then 1
            else if typ = TYPE_SHORT ∨ typ = TYPE_SSHORT then 2 else 4) * count ≤ 4 then
          some (addTagNode tagId typ count
            (some (if (if typ = TYPE_BYTE ∨ typ = TYPE_SBYTE then (1:Nat)
                       else if typ = TYPE_SHORT ∨ typ = TYPE_SSHORT then 2 else 4) = 1 then
                     List.take count data
                   else [u16val le (List.getD data 0 0) (List.getD data 1 0),
                         u16val le (List.getD data 2 0) (List.getD data 3 0)])) none)
        else
          match readBytes f (s + 10 + offset)
              ((if typ = TYPE_BYTE ∨ typ = TYPE_SBYTE then 1
                else if typ = TYPE_SHORT ∨ typ = TYPE_SSHORT then 2 else 4) * count) with
          | none => some (addTagNode tagId typ count none none)
          | some bs =>
            some (addTagNode tagId typ count
              (some (chunkToVals le
                (if typ = TYPE_BYTE ∨ typ = TYPE_SBYTE then 1
                 else if typ = TYPE_SHORT ∨ typ = TYPE_SSHORT then 2 else 4) count bs)) none)
  else none

/-- Read the 12-byte tag descriptor at `pos` and decode it: fields are id(2),
type(2), count(4), value-or-offset(4), each endianness-normalized; `data`
keeps the raw bytes of the last field (the source's `memcpy(data, ...)`). -/
def decodeDescriptorAt (f : File) (s : Nat) (le : Bool) (app1Len : Nat) (pos : Nat) :
    Option TagNode :=
  decodeTag f s le app1Len
    (u16val le (byteAt f pos) (byteAt f (pos + 1)))
    (u16val le (byteAt f (pos + 2)) (byteAt f (pos + 3)))
    (u32val le (byteAt f (pos + 4)) (byteAt f (pos + 5)) (byteAt f (pos + 6))
      (byteAt f (pos + 7)))
    (u32val le (byteAt f (pos + 8)) (byteAt f (pos + 9)) (byteAt f (pos + 10))
      (byteAt f (pos + 11)))
    [byteAt f (pos + 8), byteAt f (pos + 9), byteAt f (pos + 10), byteAt f (pos + 11)]

/-- The tag loop of `parseIFD`: descriptors are consecutive 12-byte records;
failing to read a descriptor (`fread < sizeof(tag)`) aborts the whole
directory (`goto ERR`), while `decodeTag` itself never aborts. -/
def parseTags (f : File) (s : Nat) (le : Bool) (app1Len : Nat) :
    Nat → Nat → Option (List TagNode)
  | _, 0 => some []
  | pos, n + 1 =>
    if pos + 12 ≤ List.length f then
      match parseTags f s le app1Len (pos + 12) n with
      | none => none
      | some rest =>
        match decodeDescriptorAt f s le app1Len pos with
        | none => some rest
        | some nd => some (nd :: rest)
    else none

/-- For the 0th IFD, `parseIFD` additionally reads the 4-byte next-IFD offset
at relative offset `sizeof(TIFF_HEADER) + sizeof(short) + sizeof(IFD_TAG) *
tagCount` = `8 + 2 + 12 * tagCount` from the TIFF header base. -/
def nextIfdRead (f : File) (s : Nat) (le : Bool) (ifdType : IFD_TYPE) (tagCount : Nat) :
    Option Nat :=
  if ifdType = IFD_0TH then readU32 le f (s + 10 + (8 + 2 + 12 * tagCount)) else some 0

/-- Source `parseIFD`: read the 2-byte tag count at `startOffset` relative to
the TIFF header base (`s + 10`), the 0th-IFD next-offset, then all tags. -/
def parseIFD (f : File) (s : Nat) (hdr : App1Header) (startOffset : Nat)
    (ifdType : IFD_TYPE) : Option IfdTable :=
  match readU16 (dataIsLittleEndian hdr) f (s + 10 + startOffset) with
  | none => none
  | some tagCount =>
    match nextIfdRead f s (dataIsLittleEndian hdr) ifdType tagCount with
    | none => none
    | some nextOffset =>
      match parseTags f s (dataIsLittleEndian hdr) hdr.length
          (s + 10 + startOffset + 2) tagCount with
      | none => none
      | some tags =>
        some { ifdType := ifdType, tagCount := tagCount, tags := tags,
               nextIfdOffset := nextOffset }

/-- Source `getTagNodePtrFromIfd`: first tag with the given id. -/
def getTagNodePtrFromIfd (ifd : IfdTable) (tagId : Nat) : Option TagNode :=
  List.find? (fun t => t.tagId == tagId) ifd.tags

/-- Source `duplicateTagNode`: returns no copy when `count ≤ 0`; otherwise a
deep copy (numeric data takes precedence, as in the source's if/else). -/
def duplicateTagNode (src : TagNode) : Option TagNode :=
  if src.count = 0 then none
  else some { tagId := src.tagId, type := src.type, count := src.count,
              numData := src.numData,
              byteData := if src.numData.isSome then none else src.byteData,
              error := src.error }

/-- Source `getTagInfo`: scan the array for the first directory of the given
kind; inside it look the tag up and return a detached copy. -/
def getTagInfo (ifdArray : List IfdTable) (ifdType : IFD_TYPE) (tagId : Nat) :
    Option TagNode :=
  match ifdArray with
  | [] => none
  | ifd :: rest =>
    if ifd.ifdType = ifdType then
      match getTagNodePtrFromIfd ifd tagId with
      | none => none
      | some t => duplicateTagNode t
    else getTagInfo rest ifdType tagId

/-- `tag->numData[0]` of a pointer tag (the source reads it unchecked; for a
tag whose data is byte data this is undefined behavior in C — modelled as
0). -/
def numData0 (t : TagNode) : Nat := List.getD (t.numData.getD []) 0 0

/-- The JPEG marker-segment scan loop of `getApp1StartOffset`: on entry
`marker` is the marker just read and `pos` the position right after it (the
position of the 2-byte length field). The source loop strictly advances, so
any fuel of at least `length f` steps is never exhausted; exhaustion returns
the loop's fall-through value 0 ("not found"). -/
def scanLoop (f : File) : Nat → Nat → Nat → Int
  | _, _, 0 => 0
  | marker, pos, fuel + 1 =>
    if 0xFFE0 ≤ marker ∧ marker ≤ 0xFFEF then
      match readU16be f pos with
      | none => ERR_READ_FILE
      | some len =>
        if marker ≠ 0xFFE1 then
          -- skip the segment: fseek(CUR, len - 2) from pos + 2, i.e. pos + len
          match readU16be f (pos + len) with
          | none => ERR_READ_FILE
          | some m2 => scanLoop f m2 (pos + len + 2) fuel
        else
          match readBytes f (pos + 2) 5 with
          | none => ERR_READ_FILE
          | some idb =>
            if idb = [0x45, 0x78, 0x69, 0x66, 0x00] then
              ((pos - 2 : Nat) : Int)
            else
              -- not Exif: fseek(SET, pos); fseek(CUR, len), i.e. pos + len
              match readU16be f (pos + len) with
              | none => ERR_READ_FILE
              | some m2 => scanLoop f m2 (pos + len + 2) fuel
    else 0

/-- Source `getApp1StartOffset`: check SOI, bail out on DQT, then scan the
APPn segments for an APP1 whose payload starts with "Exif\0". -/
def getApp1StartOffset (f : File) : Int :=
  match readU16be f 0 with
  | none => ERR_READ_FILE
  | some m =>
    if m ≠ 0xFFD8 then ERR_INVALID_JPEG
    else
      match readU16be f 2 with
      | none => ERR_READ_FILE
      | some marker =>
        if marker = 0xFFDB then 0
        else scanLoop f marker 4 (List.length f + 2)

/-- Source `readApp1SegmentHeader`: read the 18-byte packed `APP1_HEADER` at
`s`, normalize the big-endian length, validate the byte-order marker
('II'/'MM' — both bytes equal, so host order is immaterial) and the TIFF
magic 0x002A, and normalize the 0th-IFD offset. -/
def readApp1SegmentHeader (f : File) (s : Nat) : Option App1Header :=
  if s + 18 ≤ List.length f then
    if (byteAt f (s + 10) = 0x49 ∧ byteAt f (s + 11) = 0x49) ∨
       (byteAt f (s + 10) = 0x4D ∧ byteAt f (s + 11) = 0x4D) then
      if u16val (byteAt f (s + 10) == 0x49) (byteAt f (s + 12)) (byteAt f (s + 13)) = 0x2A then
        some { length := be16 (byteAt f (s + 2)) (byteAt f (s + 3)),
               byteOrder := be16 (byteAt f (s + 10)) (byteAt f (s + 11)),
               reserved := u16val (byteAt f (s + 10) == 0x49) (byteAt f (s + 12))
                 (byteAt f (s + 13)),
               Ifd0thOffset := u32val (byteAt f (s + 10) == 0x49) (byteAt f (s + 14))
                 (byteAt f (s + 15)) (byteAt f (s + 16)) (byteAt f (s + 17)) }
      else none
    else none
  else none

/-- Source `init`: locate the Exif APP1 segment, then load its header; a
non-positive scanner status is passed through, a bad header is
`ERR_INVALID_APP1HEADER`. -/
def init (f : File) : Except Int (Nat × App1Header) :=
  if getApp1StartOffset f ≤ 0 then .error (getApp1StartOffset f)
  else
    match readApp1SegmentHeader f (getApp1StartOffset f).toNat with
    | none => .error ERR_INVALID_APP1HEADER
    | some hdr => .ok ((getApp1StartOffset f).toNat, hdr)

/-- The Exif-IFD leg of `createIfdTableArray`: directories successfully
parsed (Exif, and nested Interoperability) together with the "had an IFD
error" flag (`sts = ERR_INVALID_IFD` assignments of the source). -/
def exifPart (f : File) (s : Nat) (hdr : App1Header) (ifd0 : IfdTable) :
    List IfdTable × Bool :=
  match getTagNodePtrFromIfd ifd0 TAG_ExifIFDPointer with
  | none => ([], false)
  | some tag =>
    if tag.error then ([], false)
    else
      match parseIFD f s hdr (numData0 tag) IFD_EXIF with
      | none => ([], true)
      | some ifdExif =>
        match getTagNodePtrFromIfd ifdExif TAG_InteroperabilityIFDPointer with
        | none => ([ifdExif], false)
        | some tag2 =>
          if tag2.error then ([ifdExif], false)
          else
            match parseIFD f s hdr (numData0 tag2) IFD_Interop with
            | none => ([ifdExif], true)
            | some ifdInterop => ([ifdExif, ifdInterop], false)

/-- The GPS-IFD leg of `createIfdTableArray`. -/
def gpsPart (f : File) (s : Nat) (hdr : App1Header) (ifd0 : IfdTable) :
    List IfdTable × Bool :=
  match getTagNodePtrFromIfd ifd0 TAG_GPSInfoIFDPointer with
  | none => ([], false)
  | some tag =>
    if tag.error then ([], false)
    else
      match parseIFD f s hdr (numData0 tag) IFD_GPS with
      | none => ([], true)
      | some ifdGps => ([ifdGps], false)

/-- The 1st-IFD (thumbnail) leg of `createIfdTableArray`, keyed on the 0th
directory's next-IFD offset. -/
def firstPart (f : File) (s : Nat) (hdr : App1Header) (ifd0 : IfdTable) :
    List IfdTable × Bool :=
  if ifd0.nextIfdOffset ≠ 0 then
    match parseIFD f s hdr ifd0.nextIfdOffset IFD_1ST with
    | none => ([], true)
    | some ifd1 => ([ifd1], false)
  else ([], false)

/-- Source `createIfdTableArray`: `init`, parse the 0th IFD (fatal on
failure), then the optional directories; the status is the pass-through init
error, `ERR_INVALID_IFD`, or the directory count; the array is returned
whenever at least one directory parsed. -/
def createIfdTableArray (f : File) : Option (List IfdTable) × Int :=
  match init f with
  | .error sts => (none, sts)
  | .ok (s, hdr) =>
    match parseIFD f s hdr hdr.Ifd0thOffset IFD_0TH with
    | none => (none, ERR_INVALID_IFD)
    | some ifd0 =>
      (some (ifd0 :: ((exifPart f s hdr ifd0).1 ++ (gpsPart f s hdr ifd0).1 ++
         (firstPart f s hdr ifd0).1)),
       if (exifPart f s hdr ifd0).2 || (gpsPart f s hdr ifd0).2 ||
          (firstPart f s hdr ifd0).2 then ERR_INVALID_IFD
       else ((ifd0 :: ((exifPart f s hdr ifd0).1 ++ (gpsPart f s hdr ifd0).1 ++
         (firstPart f s hdr ifd0).1)).length : Int))

/-- Source `removeExifSegmentFromJPEGFile` as a function from the input byte
stream to the output byte stream: copy the first `s` bytes, seek past
`2 + App1Header.length` bytes, copy the rest. -/
def removeExifSegmentFromJPEGFile (f : File) : Except Int (List Nat) :=
  match init f with
  | .error sts => .error sts
  | .ok (s, hdr) =>
    if s ≤ List.length f then
      .ok (List.take s f ++ List.drop (s + 2 + hdr.length) f)
    else .error ERR_READ_FILE

/-- The scan loop as claim C9 words it: after an APP1 identifier mismatch the
scanner would skip `length` bytes from the position immediately after the
2-byte length field, reading the next marker at `pos + 2 + len`. Everything
else is as in `scanLoop`. -/
def scanLoopClaimC9 (f : File) : Nat → Nat → Nat → Int
  | _, _, 0 => 0
  | marker, pos, fuel + 1 =>
    if 0xFFE0 ≤ marker ∧ marker ≤ 0xFFEF then
      match readU16be f pos with
      | none => ERR_READ_FILE
      | some len =>
        if marker ≠ 0xFFE1 then
          match readU16be f (pos + len) with
          | none => ERR_READ_FILE
          | some m2 => scanLoopClaimC9 f m2 (pos + len + 2) fuel
        else
          match readBytes f (pos + 2) 5 with
          | none => ERR_READ_FILE
          | some idb =>
            if idb = [0x45, 0x78, 0x69, 0x66, 0x00] then
              ((pos - 2 : Nat) : Int)
            else
              match readU16be f (pos + 2 + len) with
              | none => ERR_READ_FILE
              | some m2 => scanLoopClaimC9 f m2 (pos + 2 + len + 2) fuel
    else 0

/-- `getApp1StartOffset` built on the claim-C9 reading of the skip rule. -/
def getApp1StartOffsetClaimC9 (f : File) : Int :=
  match readU16be f 0 with
  | none => ERR_READ_FILE
  | some m =>
    if m ≠ 0xFFD8 then ERR_INVALID_JPEG
    else
      match readU16be f 2 with
      | none => ERR_READ_FILE
      | some marker =>
        if marker = 0xFFDB then 0
        else scanLoopClaimC9 f marker 4 (List.length f + 2)

/-- The type codes for which `parseIFD` has a decoding branch (a tag is built
exactly for these). -/
def knownType (t : Nat) : Prop :=
  t = TYPE_BYTE ∨ t = TYPE_ASCII ∨ t = TYPE_SHORT ∨ t = TYPE_LONG ∨
  t = TYPE_RATIONAL ∨ t = TYPE_SBYTE ∨ t = TYPE_UNDEFINED ∨ t = TYPE_SSHORT ∨
  t = TYPE_SLONG ∨ t = TYPE_SRATIONAL

instance (t : Nat) : Decidable (knownType t) := by
  unfold knownType; infer_instance

/-! Concrete fixtures (synthetic minimal JPEG byte streams). -/

/-- A minimal valid JPEG: SOI, Exif APP1 (declared length 0x22, 'II' TIFF
header, 0th IFD at offset 8 holding one Short tag 0x0100 = 64, next-IFD
offset 0), then EOI. -/
def jpegBasic : File :=
  [0xFF, 0xD8, 0xFF, 0xE1, 0x00, 0x22, 0x45, 0x78, 0x69, 0x66, 0x00, 0x00,
   0x49, 0x49, 0x2A, 0x00, 0x08, 0x00, 0x00, 0x00,
   0x01, 0x00,
   0x00, 0x01, 0x03, 0x00, 0x01, 0x00, 0x00, 0x00, 0x40, 0x00, 0x00, 0x00,
   0x00, 0x00, 0x00, 0x00,
   0xFF, 0xD9]

/-- As `jpegBasic` but the TIFF header's 0th-IFD offset (0xFF) points past the
end of the file, so the Main directory fails to parse. -/
def jpegBadIfd : File :=
  [0xFF, 0xD8, 0xFF, 0xE1, 0x00, 0x22, 0x45, 0x78, 0x69, 0x66, 0x00, 0x00,
   0x49, 0x49, 0x2A, 0x00, 0xFF, 0x00, 0x00, 0x00,
   0x01, 0x00,
   0x00, 0x01, 0x03, 0x00, 0x01, 0x00, 0x00, 0x00, 0x40, 0x00, 0x00, 0x00,
   0x00, 0x00, 0x00, 0x00,
   0xFF, 0xD9]

/-- A JPEG whose 0th IFD starts at TIFF-relative offset 20 (not 8): one Short
tag at 34..46, the u32 at TIFF-relative 22 (file offset 34) is 0x030001, and
the u32 at TIFF-relative 34 (file offset 46, where the 0th IFD's next-IFD
field actually lies) is 0x99. -/
def jpegIfdAt20 : File :=
  [0xFF, 0xD8, 0xFF, 0xE1, 0x00, 0x22, 0x45, 0x78, 0x69, 0x66, 0x00, 0x00,
   0x49, 0x49, 0x2A, 0x00, 0x14, 0x00, 0x00, 0x00,
   0x00, 0x00, 0x00, 0x00, 0x00, 0x00, 0x00, 0x00, 0x00, 0x00, 0x00, 0x00,
   0x01, 0x00,
   0x01, 0x00, 0x03, 0x00, 0x01, 0x00, 0x00, 0x00, 0x40, 0x00, 0x00, 0x00,
   0x99, 0x00, 0x00, 0x00,
   0xFF, 0xD9]

/-- A JPEG whose APP1 declared length is only 4, with an out-of-line Ascii
tag of count 5 whose 5 bytes "ABCDE" lie inside the file (beyond the
declared segment). -/
def jpegShortLen : File :=
  [0xFF, 0xD8, 0xFF, 0xE1, 0x00, 0x04, 0x45, 0x78, 0x69, 0x66, 0x00, 0x00,
   0x49, 0x49, 0x2A, 0x00, 0x08, 0x00, 0x00, 0x00,
   0x01, 0x00,
   0x0F, 0x01, 0x02, 0x00, 0x05, 0x00, 0x00, 0x00, 0x1A, 0x00, 0x00, 0x00,
   0x00, 0x00, 0x00, 0x00,
   0x41, 0x42, 0x43, 0x44, 0x45,
   0xFF, 0xD9]

/-- As `jpegBasic` but the single tag is an Ascii tag with count 0: it is
retained with `decodeError = true`. -/
def jpegCountZero : File :=
  [0xFF, 0xD8, 0xFF, 0xE1, 0x00, 0x22, 0x45, 0x78, 0x69, 0x66, 0x00, 0x00,
   0x49, 0x49, 0x2A, 0x00, 0x08, 0x00, 0x00, 0x00,
   0x01, 0x00,
   0x0F, 0x01, 0x02, 0x00, 0x00, 0x00, 0x00, 0x00, 0x00, 0x00, 0x00, 0x00,
   0x00, 0x00, 0x00, 0x00,
   0xFF, 0xD9]

/-- SOI, then a non-Exif APP1 (declared length 10, identifier "NOTEX"),
then — at the position the source's skip rule reaches (offset 14) — a second
APP1 whose payload is "Exif\0". Under the claim-C9 skip rule the scan would
instead continue at offset 16, read 0x0016 (not an APPn marker) and give
up. -/
def jpegTwoApp1 : File :=
  [0xFF, 0xD8, 0xFF, 0xE1, 0x00, 0x0A, 0x4E, 0x4F, 0x54, 0x45, 0x58, 0x00,
   0x00, 0x00,
   0xFF, 0xE1, 0x00, 0x16, 0x45, 0x78, 0x69, 0x66, 0x00]

/-! Theorems. -/

/-- The node built by `addTagNode` keeps the descriptor's tag id. -/
theorem addTagNode_tagId (i t c : Nat) (nd bd : Option (List Nat)) :
    (addTagNode i t c nd bd).tagId = i := by
  unfold addTagNode
  split <;> rcases nd with _ | nd <;> rcases bd with _ | bd <;> rfl

/-- The node built by `addTagNode` keeps the descriptor's type. -/
theorem addTagNode_type (i t c : Nat) (nd bd : Option (List Nat)) :
    (addTagNode i t c nd bd).type = t := by
  unfold addTagNode
  split <;> rcases nd with _ | nd <;> rcases bd with _ | bd <;> rfl

/-- The node built by `addTagNode` keeps the descriptor's count. -/
theorem addTagNode_count (i t c : Nat) (nd bd : Option (List Nat)) :
    (addTagNode i t c nd bd).count = c := by
  unfold addTagNode
  split <;> rcases nd with _ | nd <;> rcases bd with _ | bd <;> rfl

/-- A successful `readBytes` returns exactly `n` bytes. -/
theorem readBytes_length (f : File) (pos n : Nat) (bs : List Nat)
    (h : readBytes f pos n = some bs) : bs.length = n := by
  unfold readBytes at h
  split at h
  · cases h; simp_all
  · split at h
    · cases h
      simp only [List.length_take, List.length_drop]
      omega
    · cases h

/-- For every known type code, `decodeTag` yields a node (it never aborts),
built by `addTagNode` from the descriptor's own id, type and count. -/
theorem decodeTag_known (f : File) (s : Nat) (le : Bool) (L : Nat)
    (tagId typ count offset : Nat) (data : List Nat) (h : knownType typ) :
    ∃ nd bd, decodeTag f s le L tagId typ count offset data =
      some (addTagNode tagId typ count nd bd) := by
  unfold decodeTag
  rcases h with h | h | h | h | h | h | h | h | h | h <;> subst h <;>
    simp only [TYPE_BYTE, TYPE_ASCII, TYPE_SHORT, TYPE_LONG, TYPE_RATIONAL,
      TYPE_SBYTE, TYPE_UNDEFINED, TYPE_SSHORT, TYPE_SLONG, TYPE_SRATIONAL] <;>
    norm_num <;>
    repeat' split
  all_goals exact ⟨_, _, rfl⟩

/-- Failing to read a 12-byte tag descriptor (the byte window of some
descriptor exceeds the file) aborts the whole tag loop. -/
theorem parseTags_none (f : File) (s : Nat) (le : Bool) (L : Nat) :
    ∀ n pos, 0 < n → List.length f < pos + 12 * n →
      parseTags f s le L pos n = none := by
  intro n
  induction n with
  | zero => intro pos h _; exact absurd h (lt_irrefl 0)
  | succ m ih =>
    intro pos _ h2
    unfold parseTags
    by_cases hg : pos + 12 ≤ List.length f
    · rw [if_pos hg, ih (pos + 12) (by omega) (by omega)]
    · rw [if_neg hg]

/-- When every descriptor window fits in the file, the tag loop succeeds and
returns, in order, the decodes of the `n` consecutive 12-byte descriptors
(dropped tags being exactly those `decodeDescriptorAt` rejects). -/
theorem parseTags_some (f : File) (s : Nat) (le : Bool) (L : Nat) :
    ∀ n pos, pos + 12 * n ≤ List.length f →
      parseTags f s le L pos n =
        some (List.filterMap (fun j => decodeDescriptorAt f s le L (pos + 12 * j))
          (List.range n)) := by
  intro n
  induction n with
  | zero => intro pos _; simp [parseTags]
  | succ m ih =>
    intro pos h
    unfold parseTags
    rw [if_pos (by omega), ih (pos + 12) (by omega)]
    have harg : (fun j => decodeDescriptorAt f s le L (pos + 12 + 12 * j)) =
        fun j => decodeDescriptorAt f s le L (pos + 12 * (j + 1)) := by
      funext j; congr 1; omega
    rw [harg, List.range_succ_eq_map, List.filterMap_cons, List.filterMap_map]
    cases hdd : decodeDescriptorAt f s le L pos <;>
      simp [hdd, Function.comp_def, Nat.succ_eq_add_one]

/-- `getTagInfo` as a chain: first directory of the kind, tag lookup in it,
then `duplicateTagNode`. -/
theorem getTagInfo_eq (arr : List IfdTable) (kind : IFD_TYPE) (tagId : Nat) :
    getTagInfo arr kind tagId =
      (List.find? (fun d => d.ifdType == kind) arr).bind
        (fun d => (getTagNodePtrFromIfd d tagId).bind duplicateTagNode) := by
  induction arr with
  | nil => rfl
  | cons ifd rest ih =>
    unfold getTagInfo
    by_cases h : ifd.ifdType = kind
    · rw [if_pos h, List.find?_cons_of_pos _ (by simp [h])]
      cases h2 : getTagNodePtrFromIfd ifd tagId <;> simp [h2]
    · rw [if_neg h, List.find?_cons_of_neg _ (by simp [h]), ih]

/-- A successfully loaded APP1 header occupies 18 bytes from its start. -/
theorem readApp1SegmentHeader_le (f : File) (s : Nat) (hdr : App1Header)
    (h : readApp1SegmentHeader f s = some hdr) : s + 18 ≤ List.length f := by
  unfold readApp1SegmentHeader at h
  by_cases hle : s + 18 ≤ List.length f
  · exact hle
  · rw [if_neg hle] at h; cases h

/-- Successful `init` means the scanner returned exactly the start offset and
the header loaded from there. -/
theorem init_ok (f : File) (s : Nat) (hdr : App1Header)
    (h : init f = .ok (s, hdr)) :
    getApp1StartOffset f = (s : Int) ∧ readApp1SegmentHeader f s = some hdr := by
  unfold init at h
  split at h
  · exact Except.noConfusion h
  · rename_i hpos
    cases hh : readApp1SegmentHeader f (getApp1StartOffset f).toNat with
    | none => rw [hh] at h; exact Except.noConfusion h
    | some hdr2 =>
      rw [hh] at h
      simp only [Except.ok.injEq, Prod.mk.injEq] at h
      obtain ⟨h1, h2⟩ := h
      subst h1; subst h2
      exact ⟨(Int.toNat_of_nonneg (by omega)).symm, hh⟩

/-- Loop invariant of the scanner: if the scan loop is entered with `marker`
being the two bytes at `pos - 2` and returns a positive offset `n`, then the
bytes at `n` are the APP1 marker 0xFFE1, a length field is readable at
`n + 2`, and the 5 identifier bytes "Exif\0" sit at `n + 4`. -/
theorem scanLoop_found (f : File) :
    ∀ fuel marker pos (n : Nat), 2 ≤ pos → readU16be f (pos - 2) = some marker →
      scanLoop f marker pos fuel = (n : Int) → 0 < n →
      readU16be f n = some 0xFFE1 ∧ (readU16be f (n + 2)).isSome = true ∧
        readBytes f (n + 4) 5 = some [0x45, 0x78, 0x69, 0x66, 0x00] := by
  intro fuel
  induction fuel with
  | zero =>
    intro marker pos n _ _ heq hn
    simp only [scanLoop] at heq
    omega
  | succ fuel ih =>
    intro marker pos n hpos hm heq hn
    unfold scanLoop at heq
    split at heq
    · split at heq
      · simp only [ERR_READ_FILE] at heq; omega
      · rename_i len hlen
        split at heq
        · split at heq
          · simp only [ERR_READ_FILE] at heq; omega
          · rename_i m2 hm2
            exact ih m2 (pos + len + 2) n (by omega) (by simpa using hm2) heq hn
        · rename_i hm1
          push_neg at hm1
          split at heq
          · simp only [ERR_READ_FILE] at heq; omega
          · rename_i idb hid
            split at heq
            · rename_i hex
              have hn2 : n = pos - 2 := by omega
              subst hn2
              refine ⟨by rw [← hm1]; exact hm, ?_, ?_⟩
              · rw [show pos - 2 + 2 = pos by omega, hlen]; rfl
              · rw [show pos - 2 + 4 = pos + 2 by omega, hid, hex]
            · split at heq
              · simp only [ERR_READ_FILE] at heq; omega
              · rename_i m2 hm2
                exact ih m2 (pos + len + 2) n (by omega) (by simpa using hm2) heq hn
    · omega

/-- Claim C4: the scanner errors (negative status) when the first two bytes
are not the SOI marker 0xFFD8; returns 0 ("not found") when the marker after
SOI is DQT 0xFFDB, and whenever the current marker is outside the APPn range
[0xFFE0, 0xFFEF]; and a positive result is the offset of the APP1 marker
itself, from which marker, length and the "Exif\0" identifier are readable
contiguously. -/
theorem claim_C4 (f : File) :
    (readU16be f 0 ≠ some 0xFFD8 → getApp1StartOffset f < 0)
    ∧ (readU16be f 0 = some 0xFFD8 → readU16be f 2 = some 0xFFDB →
        getApp1StartOffset f = 0)
    ∧ (∀ marker pos fuel, ¬(0xFFE0 ≤ marker ∧ marker ≤ 0xFFEF) →
        scanLoop f marker pos (fuel + 1) = 0)
    ∧ (∀ n : Nat, getApp1StartOffset f = (n : Int) → 0 < n →
        readU16be f n = some 0xFFE1 ∧ (readU16be f (n + 2)).isSome = true ∧
          readBytes f (n + 4) 5 = some [0x45, 0x78, 0x69, 0x66, 0x00]) := by
  refine ⟨?_, ?_, ?_, ?_⟩
  · intro h
    unfold getApp1StartOffset
    cases h0 : readU16be f 0 with
    | none => simp [ERR_READ_FILE]
    | some m =>
      have hm : m ≠ 0xFFD8 := by rintro rfl; exact h h0
      simp [hm, ERR_INVALID_JPEG]
  · intro h1 h2
    simp [getApp1StartOffset, h1, h2]
  · intro marker pos fuel h
    simp [scanLoop, h]
  · intro n heq hn
    unfold getApp1StartOffset at heq
    split at heq
    · simp only [ERR_READ_FILE] at heq; omega
    · split at heq
      · simp only [ERR_INVALID_JPEG] at heq; omega
      · split at heq
        · simp only [ERR_READ_FILE] at heq; omega
        · rename_i marker2 hread2
          split at heq
          · omega
          · exact scanLoop_found f (List.length f + 2) marker2 4 n (by omega) hread2 heq hn

/-- Witness for C4 at the SOI+DQT file: the scanner reports "not found". -/
theorem claim_C4_witness :
    getApp1StartOffset ([0xFF, 0xD8, 0xFF, 0xDB] : File) = 0 :=
  (claim_C4 _).2.1 (by decide) (by decide)

/-- Claim C9 (amended): after an APP1 identifier mismatch the scanner reads
the next marker at the position of the length field plus `len` (i.e. it
skips `len - 2` bytes from the position right after the length field, the
length counting its own two bytes). -/
theorem claim_C9 (f : File) (marker pos len fuel : Nat) (idb : List Nat)
    (hm : marker = 0xFFE1) (hlen : readU16be f pos = some len)
    (hid : readBytes f (pos + 2) 5 = some idb)
    (hex : idb ≠ [0x45, 0x78, 0x69, 0x66, 0x00]) :
    scanLoop f marker pos (fuel + 1) =
      (match readU16be f (pos + len) with
       | none => ERR_READ_FILE
       | some m2 => scanLoop f m2 (pos + len + 2) fuel) := by
  subst hm
  simp [scanLoop, hlen, hid, hex]

/-- Witness for C9 at `jpegTwoApp1`: the first APP1 (identifier "NOTEX") is
skipped to position 4 + 10, not 4 + 2 + 10. -/
theorem claim_C9_witness :
    scanLoop jpegTwoApp1 0xFFE1 4 25 =
      (match readU16be jpegTwoApp1 (4 + 10) with
       | none => ERR_READ_FILE
       | some m2 => scanLoop jpegTwoApp1 m2 (4 + 10 + 2) 24) :=
  claim_C9 jpegTwoApp1 0xFFE1 4 10 24 [0x4E, 0x4F, 0x54, 0x45, 0x58]
    rfl (by decide) (by decide) (by decide)

/-- Counterexample to C9 as stated: on `jpegTwoApp1` the source scanner finds
the Exif APP1 at offset 14 (next marker read at length-field position +
length), while a scanner following the claim's words (skip `length` bytes
from just after the length field) finds nothing. -/
theorem claim_C9_cex :
    getApp1StartOffset jpegTwoApp1 = 14 ∧
      getApp1StartOffsetClaimC9 jpegTwoApp1 = 0 := by decide

/-- Claim C2 (amended): the next-IFD offset of a parsed Main directory is the
4-byte field at TIFF-base-relative offset `sizeof(TIFF_HEADER) + 2 + 12 *
tagCount` = `10 + 12 * tagCount` — independent of the directory's start
offset (it equals `startOffset + 2 + 12 * tagCount` only when the Main
directory starts at offset 8, right after the TIFF header). -/
theorem claim_C2 (f : File) (s : Nat) (hdr : App1Header) (st : Nat)
    (ifd : IfdTable) (h : parseIFD f s hdr st IFD_0TH = some ifd) :
    readU32 (dataIsLittleEndian hdr) f (s + 10 + (8 + 2 + 12 * ifd.tagCount)) =
      some ifd.nextIfdOffset := by
  unfold parseIFD at h
  split at h
  · cases h
  · rename_i tagCount hc
    split at h
    · cases h
    · rename_i nxt hnxt
      split at h
      · cases h
      · rename_i tags htags
        cases h
        unfold nextIfdRead at hnxt
        rw [if_pos rfl] at hnxt
        exact hnxt

/-- Witness for C2 at `jpegBasic` (Main directory at offset 8, one tag). -/
theorem claim_C2_witness :
    readU32 (dataIsLittleEndian ⟨34, 0x4949, 0x2A, 8⟩) jpegBasic
      (2 + 10 + (8 + 2 + 12 * 1)) = some 0 :=
  claim_C2 jpegBasic 2 ⟨34, 0x4949, 0x2A, 8⟩ 8
    ⟨IFD_0TH, 1, [⟨256, 3, 1, some [64], none, false⟩], 0⟩ (by decide)

/-- Counterexample to C2 as stated: in `jpegIfdAt20` the Main directory
starts at TIFF-relative offset 20 with 1 tag; the parser's next-IFD offset
is 0x030001 (read at relative offset 10 + 12), not the value 0x99 located at
the claim's position `startOffset + 2 + 12 * 1`. -/
theorem claim_C2_cex :
    (init jpegIfdAt20).toOption = some (2, ⟨34, 0x4949, 0x2A, 20⟩) ∧
    Option.map (fun i => i.nextIfdOffset)
      (parseIFD jpegIfdAt20 2 ⟨34, 0x4949, 0x2A, 20⟩ 20 IFD_0TH) = some 196609 ∧
    readU32 (dataIsLittleEndian ⟨34, 0x4949, 0x2A, 20⟩) jpegIfdAt20
      (2 + 10 + (20 + 2 + 12 * 1)) = some 153 ∧
    (196609 : Nat) ≠ 153 := by decide

/-- Claim C10: every tag built from a descriptor whose normalized count is 0
(i.e. every known-type descriptor) is a node with `decodeError = true` and
neither numeric nor byte data, for every type code with a decoding branch. -/
theorem claim_C10 (f : File) (s : Nat) (le : Bool) (L : Nat)
    (tagId typ offset : Nat) (data : List Nat) (h : knownType typ) :
    decodeTag f s le L tagId typ 0 offset data =
      some { tagId := tagId, type := typ, count := 0, numData := none,
             byteData := none, error := true } := by
  rcases h with h | h | h | h | h | h | h | h | h | h <;> subst h <;>
    simp only [decodeTag, addTagNode, readBytes, TYPE_BYTE, TYPE_ASCII,
      TYPE_SHORT, TYPE_LONG, TYPE_RATIONAL, TYPE_SBYTE, TYPE_UNDEFINED,
      TYPE_SSHORT, TYPE_SLONG, TYPE_SRATIONAL] <;>
    norm_num

/-- Witness for C10: an Ascii descriptor with count 0. -/
theorem claim_C10_witness :
    decodeTag [] 0 true 0 7 2 0 0 [0, 0, 0, 0] =
      some { tagId := 7, type := 2, count := 0, numData := none,
             byteData := none, error := true } :=
  claim_C10 [] 0 true 0 7 2 0 [0, 0, 0, 0] (by decide)

/-- Claim C3 (amended): the `≥ declared segment length` allocation bound
yields an error node with no read attempted (the result is independent of
the file) for Rational/SRational (allocation `2 * count * 4`, count
arithmetic mod 2^32) and for multi-element integer types (allocation
`4 * count` mod 2^32); for Ascii/Undefined it is checked only when `count`
also exceeds the 8192-byte stack buffer. -/
theorem claim_C3 (f : File) (s : Nat) (le : Bool) (L : Nat)
    (tagId typ count offset : Nat) (data : List Nat) :
    ((typ = TYPE_RATIONAL ∨ typ = TYPE_SRATIONAL) →
      L ≤ ((count * 2) % 4294967296) * 4 →
      decodeTag f s le L tagId typ count offset data =
        some (addTagNode tagId typ count none none))
    ∧ ((typ = TYPE_BYTE ∨ typ = TYPE_SHORT ∨ typ = TYPE_LONG ∨ typ = TYPE_SBYTE ∨
        typ = TYPE_SSHORT ∨ typ = TYPE_SLONG) → 1 < count →
      L ≤ (4 * count) % 4294967296 →
      decodeTag f s le L tagId typ count offset data =
        some (addTagNode tagId typ count none none))
    ∧ ((typ = TYPE_ASCII ∨ typ = TYPE_UNDEFINED) → 8192 < count → L ≤ count →
      decodeTag f s le L tagId typ count offset data =
        some (addTagNode tagId typ count none none))
    ∧ ((addTagNode tagId typ count none none).error = true ∧
       (addTagNode tagId typ count none none).numData = none ∧
       (addTagNode tagId typ count none none).byteData = none) := by
  refine ⟨?_, ?_, ?_, ?_⟩
  · rintro (h | h) h2 <;> subst h <;>
      simp only [decodeTag, TYPE_RATIONAL, TYPE_SRATIONAL, TYPE_ASCII,
        TYPE_UNDEFINED, TYPE_BYTE, TYPE_SHORT, TYPE_LONG, TYPE_SBYTE,
        TYPE_SSHORT, TYPE_SLONG] <;>
      norm_num <;> repeat' split
    all_goals rfl
  · rintro (h | h | h | h | h | h) h1 h2 <;> subst h <;>
      simp only [decodeTag, TYPE_RATIONAL, TYPE_SRATIONAL, TYPE_ASCII,
        TYPE_UNDEFINED, TYPE_BYTE, TYPE_SHORT, TYPE_LONG, TYPE_SBYTE,
        TYPE_SSHORT, TYPE_SLONG] <;>
      norm_num <;> repeat' split
    all_goals first | rfl | (exfalso; omega)
  · rintro (h | h) h1 h2 <;> subst h <;>
      simp only [decodeTag, TYPE_RATIONAL, TYPE_SRATIONAL, TYPE_ASCII,
        TYPE_UNDEFINED, TYPE_BYTE, TYPE_SHORT, TYPE_LONG, TYPE_SBYTE,
        TYPE_SSHORT, TYPE_SLONG] <;>
      norm_num <;> repeat' split
    all_goals first | rfl | (exfalso; omega)
  · refine ⟨?_, ?_, ?_⟩ <;> unfold addTagNode <;> split <;> rfl

/-- Witness for C3 (amended): a Rational descriptor with `8 * count` at least
the declared length yields the error node. -/
theorem claim_C3_witness :
    decodeTag [] 0 true 10 1 5 3 0 [] = some (addTagNode 1 5 3 none none) :=
  (claim_C3 [] 0 true 10 1 5 3 0 []).1 (by decide) (by decide)

/-- Counterexample to C3 as stated: in `jpegShortLen` the declared APP1
length is 4 but the out-of-line Ascii tag with count 5 (allocation size
5 ≥ 4) is read anyway and decodes without error. -/
theorem claim_C3_cex :
    (init jpegShortLen).toOption = some (2, ⟨4, 0x4949, 0x2A, 8⟩) ∧
    (createIfdTableArray jpegShortLen).1 =
      some [⟨IFD_0TH, 1, [⟨271, 2, 5, none,
        some [0x41, 0x42, 0x43, 0x44, 0x45], false⟩], 0⟩] ∧
    (4 : Nat) ≤ 5 := by decide

/-- Claim C7: Ascii/Undefined values are taken inline from the raw 4-byte
value-or-offset field when `count ≤ 4`, and for `count ≥ 5` (when the
allocation bound does not reject) exactly `count` bytes are read at the
offset relative to the TIFF header base — the count, not any terminator,
governing the read. -/
theorem claim_C7 (f : File) (s : Nat) (le : Bool) (L : Nat)
    (tagId typ count offset : Nat) (data : List Nat)
    (ht : typ = TYPE_ASCII ∨ typ = TYPE_UNDEFINED) :
    (0 < count → count ≤ 4 →
      decodeTag f s le L tagId typ count offset data =
        some { tagId := tagId, type := typ, count := count, numData := none,
               byteData := some (List.take count data), error := false })
    ∧ (5 ≤ count → ¬(8192 < count ∧ L ≤ count) →
        (∀ bs, readBytes f (s + 10 + offset) count = some bs →
          decodeTag f s le L tagId typ count offset data =
            some { tagId := tagId, type := typ, count := count, numData := none,
                   byteData := some bs, error := false })
        ∧ (readBytes f (s + 10 + offset) count = none →
          decodeTag f s le L tagId typ count offset data =
            some { tagId := tagId, type := typ, count := count, numData := none,
                   byteData := none, error := true })) := by
  constructor
  · intro h1 h2
    rcases ht with h | h <;> subst h <;>
      simp only [decodeTag, TYPE_ASCII, TYPE_UNDEFINED] <;> norm_num <;>
      rw [if_pos h2] <;> simp [addTagNode, h1]
  · intro h5 hguard
    constructor
    · intro bs hbs
      have hlen := readBytes_length f (s + 10 + offset) count bs hbs
      rcases ht with h | h <;> subst h <;>
        simp only [decodeTag, TYPE_ASCII, TYPE_UNDEFINED] <;> norm_num <;>
        rw [if_neg (by omega : ¬ count ≤ 4), if_neg hguard, hbs] <;>
        simp [addTagNode, show 0 < count by omega,
          List.take_of_length_le (le_of_eq hlen)]
    · intro hnone
      rcases ht with h | h <;> subst h <;>
        simp only [decodeTag, TYPE_ASCII, TYPE_UNDEFINED] <;> norm_num <;>
        rw [if_neg (by omega : ¬ count ≤ 4), if_neg hguard, hnone] <;>
        simp [addTagNode]

/-- Witness for C7 at both sides of the inline boundary: a count-4 Ascii tag
is taken from the raw field, a count-5 Ascii tag from the offset. -/
theorem claim_C7_witness :
    decodeTag [] 0 true 100 9 2 4 0 [10, 11, 12, 13] =
      some { tagId := 9, type := 2, count := 4, numData := none,
             byteData := some [10, 11, 12, 13], error := false } ∧
    decodeTag [0, 0, 0, 0, 0, 0, 0, 0, 0, 0, 1, 2, 3, 4, 5] 0 true 100 9 2 5 0
        [0, 0, 0, 0] =
      some { tagId := 9, type := 2, count := 5, numData := none,
             byteData := some [1, 2, 3, 4, 5], error := false } :=
  ⟨(claim_C7 [] 0 true 100 9 2 4 0 [10, 11, 12, 13] (Or.inl rfl)).1
      (by decide) (by decide),
   ((claim_C7 [0, 0, 0, 0, 0, 0, 0, 0, 0, 0, 1, 2, 3, 4, 5] 0 true 100 9 2 5 0
      [0, 0, 0, 0] (Or.inl rfl)).2 (by decide) (by decide)).1
     [1, 2, 3, 4, 5] (by decide)⟩

/-- Claim C5: a failure reading the 2-byte tag count or a 12-byte descriptor
makes `parseIFD` return no directory at all; whereas value decoding
(`decodeTag`) never aborts — every known-type descriptor yields a node
keeping its id/type/count (with `decodeError` set when the value could not
be read) — and under structural success the directory holds the decodes of
all `n` descriptors in order. -/
theorem claim_C5 (f : File) (s : Nat) (hdr : App1Header) (st : Nat)
    (it : IFD_TYPE) :
    (readU16 (dataIsLittleEndian hdr) f (s + 10 + st) = none →
      parseIFD f s hdr st it = none)
    ∧ (∀ n, readU16 (dataIsLittleEndian hdr) f (s + 10 + st) = some n → 0 < n →
        List.length f < s + 10 + st + 2 + 12 * n → parseIFD f s hdr st it = none)
    ∧ (∀ tagId typ count offset data, knownType typ →
        ∃ nd bd,
          decodeTag f s (dataIsLittleEndian hdr) hdr.length tagId typ count offset
              data = some (addTagNode tagId typ count nd bd) ∧
            (addTagNode tagId typ count nd bd).tagId = tagId ∧
            (addTagNode tagId typ count nd bd).type = typ ∧
            (addTagNode tagId typ count nd bd).count = count)
    ∧ (∀ n nxt, readU16 (dataIsLittleEndian hdr) f (s + 10 + st) = some n →
        nextIfdRead f s (dataIsLittleEndian hdr) it n = some nxt →
        s + 10 + st + 2 + 12 * n ≤ List.length f →
        parseIFD f s hdr st it =
          some { ifdType := it, tagCount := n,
                 tags := List.filterMap
                   (fun j => decodeDescriptorAt f s (dataIsLittleEndian hdr)
                     hdr.length (s + 10 + st + 2 + 12 * j)) (List.range n),
                 nextIfdOffset := nxt }) := by
  refine ⟨?_, ?_, ?_, ?_⟩
  · intro h
    simp [parseIFD, h]
  · intro n h hn hlen
    cases hnxt : nextIfdRead f s (dataIsLittleEndian hdr) it n with
    | none => simp [parseIFD, h, hnxt]
    | some nxt =>
      simp [parseIFD, h, hnxt,
        parseTags_none f s (dataIsLittleEndian hdr) hdr.length n
          (s + 10 + st + 2) hn (by omega)]
  · intro tagId typ count offset data h
    obtain ⟨nd, bd, hdt⟩ :=
      decodeTag_known f s (dataIsLittleEndian hdr) hdr.length tagId typ count
        offset data h
    exact ⟨nd, bd, hdt, addTagNode_tagId _ _ _ _ _, addTagNode_type _ _ _ _ _,
      addTagNode_count _ _ _ _ _⟩
  · intro n nxt h hnxt hlen
    simp [parseIFD, h, hnxt,
      parseTags_some f s (dataIsLittleEndian hdr) hdr.length n
        (s + 10 + st + 2) hlen]

/-- Witness for C5 at `jpegBadIfd`: the tag-count read at relative offset
0xFF fails, so the Main directory parse returns nothing. -/
theorem claim_C5_witness :
    parseIFD jpegBadIfd 2 ⟨34, 0x4949, 0x2A, 0xFF⟩ 0xFF IFD_0TH = none :=
  (claim_C5 jpegBadIfd 2 ⟨34, 0x4949, 0x2A, 0xFF⟩ 0xFF IFD_0TH).1 (by decide)

/-- Claim C8 (amended): `getTagInfo` returns nothing exactly when the first
directory of the kind has no tag with the id, or its stored tag has count 0
(`duplicateTagNode` refuses `count ≤ 0`); otherwise, also for tags with
`decodeError = true`, the result is a detached copy with equal id, type,
count, error flag and value data. -/
theorem claim_C8 (arr : List IfdTable) (kind : IFD_TYPE) (tagId : Nat) :
    (getTagInfo arr kind tagId = none ↔
      ∀ d, List.find? (fun x => x.ifdType == kind) arr = some d →
        ∀ t, getTagNodePtrFromIfd d tagId = some t → t.count = 0)
    ∧ (∀ d t, List.find? (fun x => x.ifdType == kind) arr = some d →
        getTagNodePtrFromIfd d tagId = some t → 0 < t.count →
        getTagInfo arr kind tagId =
          some { tagId := t.tagId, type := t.type, count := t.count,
                 numData := t.numData,
                 byteData := if t.numData.isSome then none else t.byteData,
                 error := t.error }) := by
  constructor
  · rw [getTagInfo_eq]
    cases hfind : List.find? (fun x => x.ifdType == kind) arr with
    | none => simp
    | some d =>
      cases htag : getTagNodePtrFromIfd d tagId with
      | none => simp [htag]
      | some t =>
        by_cases hc : t.count = 0 <;> simp [htag, duplicateTagNode, hc]
  · intro d t hfind htag hc
    rw [getTagInfo_eq, hfind]
    simp only [Option.some_bind]
    rw [htag]
    simp only [Option.some_bind]
    unfold duplicateTagNode
    rw [if_neg (by omega)]

/-- Witness for C8 (amended) on the directory parsed from `jpegBasic`. -/
theorem claim_C8_witness :
    getTagInfo [⟨IFD_0TH, 1, [⟨256, 3, 1, some [64], none, false⟩], 0⟩]
        IFD_0TH 256 =
      some { tagId := 256, type := 3, count := 1, numData := some [64],
             byteData := none, error := false } :=
  (claim_C8 [⟨IFD_0TH, 1, [⟨256, 3, 1, some [64], none, false⟩], 0⟩]
      IFD_0TH 256).2
    ⟨IFD_0TH, 1, [⟨256, 3, 1, some [64], none, false⟩], 0⟩
    ⟨256, 3, 1, some [64], none, false⟩ (by decide) (by decide) (by decide)

/-- Counterexample to C8 as stated: `jpegCountZero` parses to a result set
whose Main directory contains the tag 0x010F (count 0, `decodeError = true`),
yet `getTagInfo` returns nothing for it — indistinguishable from absence. -/
theorem claim_C8_cex :
    (createIfdTableArray jpegCountZero).1 =
      some [⟨IFD_0TH, 1, [⟨271, 2, 0, none, none, true⟩], 0⟩] ∧
    getTagNodePtrFromIfd ⟨IFD_0TH, 1, [⟨271, 2, 0, none, none, true⟩], 0⟩ 271 =
      some ⟨271, 2, 0, none, none, true⟩ ∧
    getTagInfo [⟨IFD_0TH, 1, [⟨271, 2, 0, none, none, true⟩], 0⟩] IFD_0TH 271 =
      none := by decide

/-- Claim C1: with `init` succeeded, a Main-directory parse failure makes
`createIfdTableArray` report `ERR_INVALID_IFD` with no result set; when Main
parses but some optional directory leg fails, the status is still
`ERR_INVALID_IFD` while the returned array is present and consists of the
Main directory followed by exactly the optional directories that parsed. -/
theorem claim_C1 (f : File) (s : Nat) (hdr : App1Header)
    (hinit : init f = .ok (s, hdr)) :
    (parseIFD f s hdr hdr.Ifd0thOffset IFD_0TH = none →
      createIfdTableArray f = (none, ERR_INVALID_IFD))
    ∧ (∀ ifd0, parseIFD f s hdr hdr.Ifd0thOffset IFD_0TH = some ifd0 →
        ((exifPart f s hdr ifd0).2 || (gpsPart f s hdr ifd0).2 ||
         (firstPart f s hdr ifd0).2) = true →
        createIfdTableArray f =
          (some (ifd0 :: ((exifPart f s hdr ifd0).1 ++ (gpsPart f s hdr ifd0).1 ++
            (firstPart f s hdr ifd0).1)), ERR_INVALID_IFD)) := by
  constructor
  · intro hmain
    simp [createIfdTableArray, hinit, hmain]
  · intro ifd0 hmain herr
    simp [createIfdTableArray, hinit, hmain, herr]

/-- Witness for C1 at `jpegBadIfd`: Main fails, the whole call returns no
array and `ERR_INVALID_IFD`. -/
theorem claim_C1_witness :
    createIfdTableArray jpegBadIfd = (none, ERR_INVALID_IFD) :=
  (claim_C1 jpegBadIfd 2 ⟨34, 0x4949, 0x2A, 0xFF⟩ rfl).1 (by decide)

/-- Claim C6: removing the segment found at offset `s` with declared length
`L` yields exactly the input bytes before `s` followed by the input bytes
from `s + 2 + L` on: the output length is the input length minus `2 + L`,
and the bytes on either side of the excised range are unchanged. -/
theorem claim_C6 (f : File) (s : Nat) (hdr : App1Header)
    (hinit : init f = .ok (s, hdr))
    (hfit : s + 2 + hdr.length ≤ List.length f) :
    removeExifSegmentFromJPEGFile f =
      .ok (List.take s f ++ List.drop (s + 2 + hdr.length) f)
    ∧ (List.take s f ++ List.drop (s + 2 + hdr.length) f).length =
        List.length f - (2 + hdr.length)
    ∧ List.take s (List.take s f ++ List.drop (s + 2 + hdr.length) f) =
        List.take s f
    ∧ List.drop s (List.take s f ++ List.drop (s + 2 + hdr.length) f) =
        List.drop (s + 2 + hdr.length) f := by
  have hs18 := readApp1SegmentHeader_le f s hdr (init_ok f s hdr hinit).2
  have hsle : s ≤ List.length f := by omega
  have hlen : (List.take s f).length = s := by
    simp [List.length_take]; omega
  refine ⟨?_, ?_, ?_, ?_⟩
  · simp [removeExifSegmentFromJPEGFile, hinit, hsle]
  · simp only [List.length_append, List.length_take, List.length_drop]
    omega
  · rw [List.take_left' hlen]
  · rw [List.drop_left' hlen]

/-- Witness for C6 at `jpegBasic`: segment at offset 2, declared length 34;
the output is SOI followed by EOI. -/
theorem claim_C6_witness :
    removeExifSegmentFromJPEGFile jpegBasic =
      .ok (List.take 2 jpegBasic ++ List.drop 38 jpegBasic) :=
  (claim_C6 jpegBasic 2 ⟨34, 0x4949, 0x2A, 8⟩ rfl (by decide)).1

end Exif
